import Mathlib

/-!
Shallow embedding of the credential & token lifecycle engine of the
`plantilla` authentication microservice (`src/services/auth`), together
with theorems settling the frozen claims about it.

Conventions of the embedding:
* Python `datetime` values are modelled as `Nat` instants (ticks since the
  epoch); `datetime.utcnow()` becomes an explicit `now : Nat` argument.
* Fallible Python code is modelled with `Except`: a raised exception is an
  `Except.error` value.
* Passwords reaching the bcrypt layer are modelled as their UTF-8 byte
  lists (`List Nat`), which is the form passlib hands to bcrypt.
-/

namespace Plantilla

/-! ## RefreshToken model (`app/models/user.py`) -/

/-- The `refresh_tokens` row of `app/models/user.py` (class `RefreshToken`):
columns `user_id`, `token_hash`, `expires_at`, `created_at`, `revoked`,
`device_info`. -/
structure RefreshToken where
  user_id : Nat
  token_hash : String
  expires_at : Nat
  created_at : Nat
  revoked : Bool
  device_info : Option String
deriving DecidableEq

/-- `RefreshToken.is_valid` from `app/models/user.py` lines 349-362:
`if self.revoked: return False`, then
`if datetime.utcnow() > self.expires_at: return False`, then `return True`.
`datetime.utcnow()` is the explicit `now` argument. -/
def RefreshToken.is_valid (t : RefreshToken) (now : Nat) : Bool :=
  if t.revoked then false
  else if now > t.expires_at then false
  else true

/-! ## Secret hasher (`app/utils/security.py` with passlib/bcrypt)

`pwd_context = CryptContext(schemes=["bcrypt"])`.  The passlib bcrypt
handler, at its defaults, silently truncates the UTF-8 encoded password to
its first 72 bytes (`truncate_size = 72`, `truncate_error = False`) before
key derivation, and embeds a fresh random salt in every digest it
produces.  `CryptContext.verify` first identifies the scheme of the digest
string; a string no configured scheme recognises makes it raise
`passlib.exc.UnknownHashError` (a `ValueError`) instead of returning.

The embedding keeps exactly that structure: a digest string is either a
well-formed bcrypt digest — carrying its salt and its derived key — or an
unidentifiable string.  The bcrypt key derivation function is modelled as
the identity embedding of the truncated password (an injective function,
the ideal-primitive reading of a collision-free KDF); the salt is carried
in the digest, as bcrypt digests do. -/

/-- A digest string as `CryptContext` classifies it: either a well-formed
bcrypt digest (salt and derived key recoverable from the `$2b$...` string)
or a string no configured scheme identifies. -/
inductive HashStr where
  | bcrypt (salt : Nat) (key : List Nat) : HashStr
  | unidentified (raw : String) : HashStr
deriving DecidableEq

/-- The exception `passlib.exc.UnknownHashError` (a `ValueError`) raised by
`CryptContext.verify` when the digest string cannot be identified. -/
inductive PasslibError where
  | unknownHash : PasslibError
deriving DecidableEq

/-- Passlib's bcrypt truncation: only the first 72 bytes of the encoded
password take part in key derivation. -/
def truncate72 (pw : List Nat) : List Nat :=
  pw.take 72

/-- Bcrypt key derivation applied at hashing time, modelled as the identity
embedding of the truncated password (the salt is carried alongside in the
digest, as in the real `$2b$12$<salt><key>` format). -/
def bcryptDerive (pw : List Nat) : List Nat :=
  truncate72 pw

/-- `pwd_context.hash` of `security.py`: bcrypt with the fresh salt drawn
for this call (the salt draw is the explicit `salt` argument). -/
def hash_password (salt : Nat) (password : List Nat) : HashStr :=
  HashStr.bcrypt salt (bcryptDerive password)

/-- `pwd_context.verify`: identify the digest; for a bcrypt digest,
re-derive the key from the candidate password with the digest's parameters
and compare; for an unidentifiable string, raise `UnknownHashError`. -/
def cryptContextVerify (plain : List Nat) (digest : HashStr) :
    Except PasslibError Bool :=
  match digest with
  | HashStr.bcrypt _ key => Except.ok (decide (bcryptDerive plain = key))
  | HashStr.unidentified _ => Except.error PasslibError.unknownHash

/-- `verify_password` from `security.py` lines 47-62: a bare delegation
`return pwd_context.verify(plain_password, hashed_password)` with no
exception handling. -/
def verify_password (plain_password : List Nat) (hashed_password : HashStr) :
    Except PasslibError Bool :=
  cryptContextVerify plain_password hashed_password

/-! ## Generic Python-exception model for the service layer -/

/-- Exceptions the embedded service code can raise: `NotImplementedError`
(the explicit body of the unimplemented `TokenService` methods) and
pydantic's `ValidationError`. -/
inductive PyError where
  | notImplementedError (msg : String) : PyError
  | validationError (field : String) : PyError
deriving DecidableEq

/-! ## Configuration (`app/config.py`) -/

/-- `Settings.MAX_LOGIN_ATTEMPTS` (`config.py` line 150): `Field(default=5)`. -/
def MAX_LOGIN_ATTEMPTS : Nat := 5

/-- `Settings.LOGIN_LOCKOUT_MINUTES` (`config.py` line 153): `Field(default=15)`. -/
def LOGIN_LOCKOUT_MINUTES : Nat := 15

/-! ## Lockout state and the `AuthService` helpers
(`app/services/auth_service.py`) -/

/-- The lockout-relevant slice of the `User` row: the failed-attempt
counter and the optional lockout-expiry timestamp. -/
structure UserLockState where
  failed_login_attempts : Nat
  locked_until : Option Nat
deriving DecidableEq

/-- `AuthService._is_user_locked` (`auth_service.py` lines 264-282).  The
entire body after the docstring is the stub `return False`: the documented
check (`locked_until` set and in the future) exists only as commented-out
TODO code, so the function ignores its argument and the clock. -/
def AuthService.is_user_locked (user : UserLockState) (now : Nat) : Bool :=
  false

/-- `AuthService._handle_failed_login` (`auth_service.py` lines 284-305).
The entire body after the docstring is the stub `pass`: the documented
increment-and-maybe-lock update exists only as commented-out TODO code, so
the user state is returned unchanged. -/
def AuthService.handle_failed_login (user : UserLockState) (now : Nat) :
    UserLockState :=
  user

/-- `AuthService.request_password_reset` (`auth_service.py` lines 330-352).
The entire body after the docstring is the stub `pass`: it performs no
lookup and returns `None` whatever the database holds.  The database is
modelled as the list of registered account emails. -/
def AuthService.request_password_reset (db : List String) (email : String) :
    Except PyError Unit :=
  Except.ok ()

/-! ## Token service (`app/services/token_service.py`) -/

/-- The `user` argument of `create_access_token`: an object carrying `id`,
`email` and `role`. -/
structure UserView where
  id : Nat
  email : String
  role : String
deriving DecidableEq

/-- Schema `TokenData` (`app/schemas/auth.py`): `sub`, optional `email`,
`role` and `exp`. -/
structure TokenData where
  sub : String
  email : Option String
  role : Option String
  exp : Option Nat
deriving DecidableEq

/-- `TokenService.create_access_token` (`token_service.py` lines 52-92).
The entire body after the docstring is
`raise NotImplementedError("Método pendiente de implementar")`; the JWT
construction appears only inside the docstring as example code. -/
def TokenService.create_access_token (user : UserView)
    (additional_claims : List (String × String)) (now : Nat) :
    Except PyError String :=
  Except.error (PyError.notImplementedError "Método pendiente de implementar")

/-- `TokenService.decode_access_token` (`token_service.py` lines 94-128).
The entire body after the docstring is
`raise NotImplementedError("Método pendiente de implementar")`. -/
def TokenService.decode_access_token (token : String) (now : Nat) :
    Except PyError (Option TokenData) :=
  Except.error (PyError.notImplementedError "Método pendiente de implementar")

/-! ## Password-reset route (`app/routers/auth_router.py`) -/

/-- Schema `MessageResponse` (`app/schemas/auth.py`): `message` plus
`success` defaulting to `True`. -/
structure MessageResponse where
  message : String
  success : Bool
deriving DecidableEq

/-- Route handler `request_password_reset` (`auth_router.py` lines
250-270).  The `AuthService` call is commented out; the body
unconditionally returns the generic
`MessageResponse(message="Si el email existe, ...")` without touching the
database session (modelled, as above, by the list of registered emails). -/
def request_password_reset_route (db : List String)
    (email : String) : Except PyError MessageResponse :=
  Except.ok
    { message :=
        "Si el email existe, recibirás instrucciones para resetear tu password"
      success := true }

/-! ## Password strength validation (`app/utils/security.py` lines 110-150)

Characters are modelled as Lean `Char` with the ASCII classifiers
`Char.isUpper`, `Char.isLower`, `Char.isDigit` standing for Python's
`str.isupper`, `str.islower`, `str.isdigit` (the embedding covers the
ASCII fragment of Unicode, on which the two agree). -/

/-- `validate_password_strength` of `security.py`: appends one Spanish
error message per violated rule, in source order (length, uppercase,
lowercase, digit), and returns `(len(errors) == 0, errors)`. -/
def validate_password_strength (password : List Char) :
    Bool × List String :=
  let errors : List String := []
  let errors :=
    if password.length < 8 then
      errors ++ ["La contraseña debe tener al menos 8 caracteres"]
    else errors
  let errors :=
    if !(password.any Char.isUpper) then
      errors ++ ["La contraseña debe contener al menos una mayúscula"]
    else errors
  let errors :=
    if !(password.any Char.isLower) then
      errors ++ ["La contraseña debe contener al menos una minúscula"]
    else errors
  let errors :=
    if !(password.any Char.isDigit) then
      errors ++ ["La contraseña debe contener al menos un número"]
    else errors
  (errors.length == 0, errors)

/-! ## Registration schema (`app/schemas/auth.py` lines 19-78) -/

/-- A validated `UserRegister` model instance: `email`, `password`,
`password_confirm`. -/
structure UserRegister where
  email : String
  password : List Char
  password_confirm : List Char
deriving DecidableEq

/-- The `@field_validator("password")` classmethod
`UserRegister.validate_password_strength` (`auth.py` lines 51-71): every
character-class check is commented-out TODO code, so the body is just
`return v`. -/
def UserRegister.validate_password_strength (v : List Char) :
    Except PyError (List Char) :=
  Except.ok v

/-- Pydantic validation of `UserRegister`: `EmailStr` syntactic validation
of `email` (an external validator, embedded as its outcome `email_ok`),
the `Field` bounds `min_length=8` / `max_length=100` on `password`, then
the `password` field validator.  `password_confirm` has no constraint and
no `model_validator` compares the two fields (that check is commented-out
TODO code at `auth.py` lines 73-78). -/
def UserRegister.model_validate (email_ok : Bool) (email : String)
    (password password_confirm : List Char) : Except PyError UserRegister :=
  if email_ok = false then
    Except.error (PyError.validationError "email")
  else if password.length < 8 then
    Except.error (PyError.validationError "password: min_length")
  else if 100 < password.length then
    Except.error (PyError.validationError "password: max_length")
  else
    match UserRegister.validate_password_strength password with
    | Except.ok v =>
        Except.ok { email := email, password := v,
                    password_confirm := password_confirm }
    | Except.error e => Except.error e

/-! ## Claim theorems -/

/-- C1 (counterexample): the claim "is_valid returns true iff not revoked
and now is strictly less than expires_at" fails at the concrete token with
`expires_at = 100`, `revoked = false`, evaluated at `now = 100`: the code
returns `true` there although `100 < 100` is false. -/
theorem C1_counterexample :
    ¬ (RefreshToken.is_valid ⟨1, "h", 100, 0, false, none⟩ 100 = true ↔
        ((⟨1, "h", 100, 0, false, none⟩ : RefreshToken).revoked = false ∧
          100 < 100)) := by
  decide

/-- C1 (amended): `RefreshToken.is_valid t now` is true iff the token is
not revoked and `now ≤ expires_at` — a token checked at the very instant
`expires_at` is still valid, because the code tests `utcnow() > expires_at`
(strict) to reject. -/
theorem C1_is_valid_iff (t : RefreshToken) (now : Nat) :
    t.is_valid now = true ↔ (t.revoked = false ∧ now ≤ t.expires_at) := by
  cases hr : t.revoked <;> simp [RefreshToken.is_valid, hr]

/-- C2 (counterexample): on the malformed digest string "xxxx" (a string
no configured passlib scheme identifies), `verify_password` does not
return false — it raises `UnknownHashError` — refuting the claim at this
concrete input. -/
theorem C2_counterexample :
    ¬ (verify_password [] (HashStr.unidentified "xxxx") = Except.ok false) := by
  simp [verify_password, cryptContextVerify]

/-- C2 (amended): for every plaintext and every malformed digest string,
`verify_password` raises (propagates passlib's `UnknownHashError`, a
`ValueError`) instead of returning a boolean: the delegation to
`pwd_context.verify` has no exception handling. -/
theorem C2_verify_password_malformed (plain : List Nat) (raw : String) :
    verify_password plain (HashStr.unidentified raw) =
      Except.error PasslibError.unknownHash := by
  rfl

/-- C4 (counterexample): bcrypt truncates passwords to 72 bytes, so the
73-byte password `97,...,97,98` verifies successfully against the digest
of the different 73-byte password `97,...,97,97`: verification does not
decide equality with the hashed password. -/
theorem C4_counterexample :
    verify_password (List.replicate 72 97 ++ [98])
        (hash_password 0 (List.replicate 73 97)) = Except.ok true ∧
      List.replicate 72 97 ++ [98] ≠ List.replicate 73 97 := by
  constructor
  · rfl
  · decide

/-- C4 (amended): for every salt and all passwords P, P2,
`verify_password(P2, hash_password(P))` returns true iff the first 72
bytes of P2 equal the first 72 bytes of P — verification decides equality
of the 72-byte bcrypt truncations, hence genuine equality for passwords of
at most 72 bytes. -/
theorem C4_verify_decides_truncated_equality (salt : Nat) (p p2 : List Nat) :
    verify_password p2 (hash_password salt p) = Except.ok true ↔
      truncate72 p2 = truncate72 p := by
  simp [verify_password, cryptContextVerify, hash_password, bcryptDerive]

/-- C7: two calls to `hash_password` on the same password with distinct
fresh salts yield distinct digests — the digest embeds the salt drawn for
the call, so it is not a deterministic function of the plaintext. -/
theorem C7_hash_password_fresh_salt (s1 s2 : Nat) (p : List Nat)
    (h : s1 ≠ s2) : hash_password s1 p ≠ hash_password s2 p := by
  simp [hash_password, h]

/-- C7 (witness): concrete distinct salts 0 and 1 give distinct digests of
the empty password. -/
theorem C7_witness :
    (0 : Nat) ≠ 1 ∧ hash_password 0 [] ≠ hash_password 1 [] :=
  ⟨by decide, C7_hash_password_fresh_salt 0 1 [] (by decide)⟩

/-- C3 (code evaluation at the failing input): for a user whose
`locked_until` is set to 10 checked at `now = 5` — a state the claim says
is locked — the stub `_is_user_locked` still returns false, because its
body is the TODO placeholder `return False`. -/
theorem C3_is_user_locked_stub :
    AuthService.is_user_locked ⟨0, some 10⟩ 5 = false ∧
      (some 10 : Option Nat) ≠ none ∧ 5 < 10 := by
  decide

/-- C5 (code evaluation at the failing input): for a user at 4 failed
attempts (one below `MAX_LOGIN_ATTEMPTS = 5`), the stub
`_handle_failed_login` leaves the counter at 4 instead of incrementing it
to 5 and setting `locked_until`, because its body is the TODO placeholder
`pass`. -/
theorem C5_handle_failed_login_stub :
    (AuthService.handle_failed_login ⟨4, none⟩ 100).failed_login_attempts
        = 4 ∧
      4 + 1 = MAX_LOGIN_ATTEMPTS ∧
      (AuthService.handle_failed_login ⟨4, none⟩ 100).locked_until = none := by
  decide

/-- C8 (code evaluation at the failing input): minting an access token for
a concrete user raises `NotImplementedError` instead of returning a token,
and decoding likewise raises, so the claimed mint/decode round trip cannot
occur. -/
theorem C8_create_access_token_stub :
    TokenService.create_access_token ⟨1, "a@x.com", "customer"⟩ [] 0 =
        Except.error
          (PyError.notImplementedError "Método pendiente de implementar") ∧
      TokenService.decode_access_token "token" 0 =
        Except.error
          (PyError.notImplementedError "Método pendiente de implementar") :=
  ⟨rfl, rfl⟩

/-- C6: the password-reset request is uniform in account existence — for
any two database states (lists of registered emails) and any email, the
route handler returns the same successful generic `MessageResponse`, and
the service-layer operation also returns identically; neither run fails. -/
theorem C6_request_password_reset_uniform (db db2 : List String)
    (email : String) :
    request_password_reset_route db email =
        request_password_reset_route db2 email ∧
      AuthService.request_password_reset db email =
        AuthService.request_password_reset db2 email ∧
      ∃ r, request_password_reset_route db email = Except.ok r :=
  ⟨rfl, rfl, _, rfl⟩

/-- C9: `validate_password_strength p` returns `(true, [])` exactly when
`p` has length at least 8 and contains an uppercase letter, a lowercase
letter and a digit; the boolean component is true iff the error list is
empty; and the error list carries exactly one message per violated rule. -/
theorem C9_validate_password_strength_spec (p : List Char) :
    (validate_password_strength p = (true, []) ↔
        (8 ≤ p.length ∧ p.any Char.isUpper = true ∧
          p.any Char.isLower = true ∧ p.any Char.isDigit = true)) ∧
      ((validate_password_strength p).1 = true ↔
        (validate_password_strength p).2 = []) ∧
      (validate_password_strength p).2.length =
        ((if p.length < 8 then 1 else 0) +
          (if p.any Char.isUpper then 0 else 1) +
          (if p.any Char.isLower then 0 else 1) +
          (if p.any Char.isDigit then 0 else 1)) := by
  by_cases h1 : p.length < 8 <;>
    cases h2 : p.any Char.isUpper <;>
      cases h3 : p.any Char.isLower <;>
        cases h4 : p.any Char.isDigit <;>
          (simp [validate_password_strength, h1, h2, h3, h4]; try omega)

/-- C10: `UserRegister` validation succeeds for every syntactically valid
email and every password of length between 8 and 100, whatever
`password_confirm` is and whatever character classes the password lacks:
the field validator passes the password through unchanged and no validator
compares the two password fields. -/
theorem C10_user_register_accepts (email : String) (p c : List Char)
    (h8 : 8 ≤ p.length) (h100 : p.length ≤ 100) :
    UserRegister.model_validate true email p c =
      Except.ok { email := email, password := p, password_confirm := c } := by
  unfold UserRegister.model_validate
  rw [if_neg (by decide), if_neg (by omega), if_neg (by omega)]
  rfl

/-- C10 (witness): the concrete registration with a valid email, the
all-lowercase digit-free password "abcdefgh" and the differing
confirmation "different" passes schema validation unchanged. -/
theorem C10_witness :
    UserRegister.model_validate true "user@example.com"
        ("abcdefgh".toList) ("different".toList) =
        Except.ok { email := "user@example.com",
                    password := "abcdefgh".toList,
                    password_confirm := "different".toList } ∧
      "abcdefgh".toList ≠ "different".toList ∧
      "abcdefgh".toList.any Char.isUpper = false ∧
      "abcdefgh".toList.any Char.isDigit = false :=
  ⟨C10_user_register_accepts "user@example.com" "abcdefgh".toList
      "different".toList (by decide) (by decide),
    by decide, by decide, by decide⟩

end Plantilla
